import Mathlib

/-!
Shallow embedding of `src/slash/parallel/worker.py` (class `Worker`).

The worker talks to an external master over RPC.  We embed `Worker.start`
as a pure function from the master's behaviour (a script of responses,
one entry per `get_test` call, each dispatch entry carrying whether
`run_tests` raises an interruption and the `finished_test`
acknowledgement) to the ordered trace of observable events the worker
performs, together with how the routine exits (normal return, re-raised
interruption, ...).

The sentinel constants `FINISHED_ALL_TESTS`, `PROTOCOL_ERROR`,
`WAITING_FOR_CLIENTS`, `SHOULD_TERMINATE` are imported by the source
from `slash.parallel.server`, which is not part of the given sources;
following the spec's data model they are modelled as a tagged sum
(`GetTestResponse` / `LoopStep`), distinct from every real test index.
Process-group setup (`os.setsid`) and the internals of `run_tests`,
logging and the RPC transport are external collaborators: only their
invocation order is recorded, as events.
-/

namespace Worker

/-- Acknowledgement returned by the master's `finished_test` RPC:
either an ordinary acknowledgement or the `PROTOCOL_ERROR` sentinel
(worker.py line 78 compares the return value against `PROTOCOL_ERROR`). -/
inductive FinishedTestAck
  | ok
  | protocolError
deriving DecidableEq

/-- Modelled from the spec: the response channel of `get_test`.  The
sentinel constants live in `slash/parallel/server.py`, which is not in
the sources; per the spec's data model the response is one of a small
closed set of control codes or a real test index, and a real index is
distinct from every sentinel. -/
inductive GetTestResponse
  | waitingForClients
  | protocolError
  | finishedAllTests
  | shouldTerminate
  | testIndex (i : Nat)
deriving DecidableEq

/-- One `get_test` round of the master, as consumed by the worker's run
loop.  A `dispatch` entry also records the behaviour of the external
collaborators in that iteration: whether `run_tests` raises an
interruption exception, and the acknowledgement `finished_test` returns. -/
inductive LoopStep
  | waiting
  | protoError
  | finishedAll
  | terminate
  | dispatch (i : Nat) (interrupts : Bool) (ack : FinishedTestAck)
deriving DecidableEq

/-- The `get_test` response carried by a loop-script entry. -/
def stepResponse : LoopStep → GetTestResponse
  | LoopStep.waiting => GetTestResponse.waitingForClients
  | LoopStep.protoError => GetTestResponse.protocolError
  | LoopStep.finishedAll => GetTestResponse.finishedAllTests
  | LoopStep.terminate => GetTestResponse.shouldTerminate
  | LoopStep.dispatch i _ _ => GetTestResponse.testIndex i

/-- Observable events of `Worker.start`, in program order.  RPC calls
carry the client id they are made with; `finishedTest cid i` is the
`finished_test` call submitting the serialized result of test `i`. -/
inductive Event
  | register
  | connect (clientId : String)
  | validateCollection (clientId : String)
  | logMismatch (clientId : String)
  | heartbeatStart
  | getTest (clientId : String)
  | logDebug
  | sleepBackoff
  | logProtocolError (clientId : String)
  | setCurrentTestIndex (i : Nat)
  | runTest (i : Nat)
  | finishedTest (clientId : String) (i : Nat)
  | logInterrupted
  | markComplete
  | disconnect (clientId : String)
  | flushRemainingScopes
  | stopEventSet
  | joinHeartbeat
deriving DecidableEq

/-- Error-level log events (`_logger.error` calls), as opposed to the
debug-level ones. -/
def isErrorLog : Event → Bool
  | Event.logMismatch _ => true
  | Event.logProtocolError _ => true
  | Event.logInterrupted => true
  | _ => false

/-- How the `while not should_stop` loop of `Worker.start` ends. -/
inductive LoopExit
  /-- `break` on `FINISHED_ALL_TESTS` or `SHOULD_TERMINATE`. -/
  | completed
  /-- `break` on `PROTOCOL_ERROR` from `get_test`. -/
  | protoErrorGet
  /-- `should_stop = True` after `finished_test` returned `PROTOCOL_ERROR`. -/
  | protoErrorAck
  /-- an interruption exception escaped `run_tests`. -/
  | interrupted
  /-- `self.collected_tests[test_index]` raised IndexError. -/
  | indexError
  /-- model artifact: the master script ran out while the loop would
  still poll `get_test`; the loop has not terminated. -/
  | exhausted
deriving DecidableEq

/-- How `Worker.start` itself finishes. -/
inductive ExitKind
  | returned
  | raisedInterruption
  | raisedIndexError
  /-- model artifact for an exhausted script: the loop is still running. -/
  | neverReturns
deriving DecidableEq

/-- The `while not should_stop` loop of `Worker.start`
(worker.py lines 57-80), one script entry per `get_test` call.
Returns the events of the loop body in order and how the loop ended. -/
def runLoop (clientId : String) (numTests : Nat) : List LoopStep → List Event × LoopExit
  | [] => ([], LoopExit.exhausted)
  | LoopStep.waiting :: rest =>
      (Event.getTest clientId :: Event.logDebug :: Event.sleepBackoff ::
        (runLoop clientId numTests rest).1,
       (runLoop clientId numTests rest).2)
  | LoopStep.protoError :: _ =>
      ([Event.getTest clientId, Event.logProtocolError clientId], LoopExit.protoErrorGet)
  | LoopStep.finishedAll :: _ =>
      ([Event.getTest clientId, Event.logDebug], LoopExit.completed)
  | LoopStep.terminate :: _ =>
      ([Event.getTest clientId, Event.logDebug], LoopExit.completed)
  | LoopStep.dispatch i interrupts ack :: rest =>
      if i < numTests then
        if interrupts then
          ([Event.getTest clientId, Event.setCurrentTestIndex i, Event.runTest i],
           LoopExit.interrupted)
        else
          match ack with
          | FinishedTestAck.protocolError =>
              ([Event.getTest clientId, Event.setCurrentTestIndex i, Event.runTest i,
                Event.logDebug, Event.finishedTest clientId i, Event.logProtocolError clientId],
               LoopExit.protoErrorAck)
          | FinishedTestAck.ok =>
              (Event.getTest clientId :: Event.setCurrentTestIndex i :: Event.runTest i ::
                Event.logDebug :: Event.finishedTest clientId i ::
                (runLoop clientId numTests rest).1,
               (runLoop clientId numTests rest).2)
      else
        ([Event.getTest clientId], LoopExit.indexError)

/-- `Worker.start` (worker.py lines 37-90): register hook, connect,
validate the collection (its boolean result is the `validateOk`
parameter), on success start the heartbeat thread and enter the run
loop under `try/except/else/finally`.  The `else` clause (mark
complete, disconnect) runs whenever the `try` body finishes without an
exception — including the `break` paths; the `finally` clause (flush
scopes, set the stop event, join the heartbeat thread) runs on every
exit, before an exception propagates out. -/
def start (clientId : String) (validateOk : Bool) (numTests : Nat)
    (script : List LoopStep) : List Event × ExitKind :=
  if validateOk then
    match (runLoop clientId numTests script).2 with
    | LoopExit.interrupted =>
        ([Event.register, Event.connect clientId, Event.validateCollection clientId,
            Event.heartbeatStart] ++ (runLoop clientId numTests script).1 ++
          [Event.logInterrupted, Event.flushRemainingScopes, Event.stopEventSet,
            Event.joinHeartbeat],
         ExitKind.raisedInterruption)
    | LoopExit.indexError =>
        ([Event.register, Event.connect clientId, Event.validateCollection clientId,
            Event.heartbeatStart] ++ (runLoop clientId numTests script).1 ++
          [Event.flushRemainingScopes, Event.stopEventSet, Event.joinHeartbeat],
         ExitKind.raisedIndexError)
    | LoopExit.exhausted =>
        ([Event.register, Event.connect clientId, Event.validateCollection clientId,
            Event.heartbeatStart] ++ (runLoop clientId numTests script).1,
         ExitKind.neverReturns)
    | _ =>
        ([Event.register, Event.connect clientId, Event.validateCollection clientId,
            Event.heartbeatStart] ++ (runLoop clientId numTests script).1 ++
          [Event.markComplete, Event.disconnect clientId, Event.flushRemainingScopes,
            Event.stopEventSet, Event.joinHeartbeat],
         ExitKind.returned)
  else
    ([Event.register, Event.connect clientId, Event.validateCollection clientId,
      Event.logMismatch clientId, Event.disconnect clientId],
     ExitKind.returned)

/-- Outcome classes of the five-way `if/elif/.../else` dispatch on the
`get_test` response (worker.py lines 59-71). -/
inductive OutcomeClass
  | waiting
  | protoError
  | allFinished
  | shouldTerminate
  | realIndex (i : Nat)
deriving DecidableEq

/-- The classification the run loop performs on a `get_test` response:
the `if/elif` chain compares against each sentinel in turn and the
final `else` treats the value as a real test index. -/
def classify : GetTestResponse → OutcomeClass
  | GetTestResponse.waitingForClients => OutcomeClass.waiting
  | GetTestResponse.protocolError => OutcomeClass.protoError
  | GetTestResponse.finishedAllTests => OutcomeClass.allFinished
  | GetTestResponse.shouldTerminate => OutcomeClass.shouldTerminate
  | GetTestResponse.testIndex i => OutcomeClass.realIndex i

/-- Dispatch/submission discipline checker: walks a trace threading the
currently in-flight dispatched test (`none` = no unsubmitted result).
`getTest` and `runTest` require no test in flight; `finishedTest`
requires exactly the in-flight test's index.  Returns the final
in-flight state, or `none` (outer) if the discipline is violated. -/
def seqStep : Event → Option Nat → Option (Option Nat)
  | Event.getTest _, none => some none
  | Event.getTest _, some _ => none
  | Event.runTest i, none => some (some i)
  | Event.runTest _, some _ => none
  | Event.finishedTest _ i, some j => if i = j then some none else none
  | Event.finishedTest _ _, none => none
  | _, p => some p

/-- Iterate `seqStep` over a whole trace. -/
def seqRun : List Event → Option Nat → Option (Option Nat)
  | [], p => some p
  | e :: es, p =>
      match seqStep e p with
      | some q => seqRun es q
      | none => none

/-- Events that do not touch the dispatch/submission discipline. -/
def seqNeutral : Event → Bool
  | Event.getTest _ => false
  | Event.runTest _ => false
  | Event.finishedTest _ _ => false
  | _ => true

/-- Trace predicate: the event is a `get_test` RPC call. -/
def isGetTest : Event → Bool
  | Event.getTest _ => true
  | _ => false

/-- Trace predicate: the event is an execution of a test. -/
def isRunTest : Event → Bool
  | Event.runTest _ => true
  | _ => false

/-- Trace predicate: the event is a `finished_test` RPC call. -/
def isFinishedSubmit : Event → Bool
  | Event.finishedTest _ _ => true
  | _ => false

/-- Master script for the three-test end-to-end run: dispatch test 0,
dispatch test 1 (both acknowledged ok, no interruption), then
`FINISHED_ALL_TESTS`. -/
def script3 : List LoopStep :=
  [LoopStep.dispatch 0 false FinishedTestAck.ok,
   LoopStep.dispatch 1 false FinishedTestAck.ok,
   LoopStep.finishedAll]

/-- Master script for the back-off run: `WAITING_FOR_CLIENTS` twice,
then dispatch test 0, then `FINISHED_ALL_TESTS`. -/
def scriptWait : List LoopStep :=
  [LoopStep.waiting, LoopStep.waiting,
   LoopStep.dispatch 0 false FinishedTestAck.ok, LoopStep.finishedAll]

/-! ### The warning hook `Worker.warning_added` -/

/-- The fields of a warning object the handler reads
(`warning.message`, `warning.filename`, `warning.lineno`). -/
structure Warning where
  message : String
  filename : String
  lineno : Nat
deriving DecidableEq

/-- The value the local name `warning` is bound to at a given point of
`warning_added`: the original warning object, or — after the rebinding
`warning = pickle.dumps(warning)` succeeds — the pickled bytes. -/
inductive PyValue
  | warningObj (w : Warning)
  | pickledBytes
deriving DecidableEq

/-- Attribute access `.message` on the current binding; bytes objects
have no such attribute, so access raises AttributeError (`Except.error`). -/
def attrMessage : PyValue → Except Unit String
  | PyValue.warningObj w => Except.ok w.message
  | PyValue.pickledBytes => Except.error ()

/-- Attribute access `.filename` on the current binding. -/
def attrFilename : PyValue → Except Unit String
  | PyValue.warningObj w => Except.ok w.filename
  | PyValue.pickledBytes => Except.error ()

/-- Attribute access `.lineno` on the current binding. -/
def attrLineno : PyValue → Except Unit Nat
  | PyValue.warningObj w => Except.ok w.lineno
  | PyValue.pickledBytes => Except.error ()

/-- Outcome of `pickle.dumps(warning)`: success, or one of the two
exception classes the handler catches. -/
inductive PickleResult
  | ok
  | raisesPicklingError
  | raisesTypeError
deriving DecidableEq

/-- Outcome of the `report_warning` RPC: success, a TypeError (caught
by the `except (pickle.PicklingError, TypeError)` clause), or any
other exception (not caught). -/
inductive ReportResult
  | ok
  | raisesTypeError
  | raisesOther
deriving DecidableEq

/-- Observable events of `warning_added`. -/
inductive WEvent
  | pickleAttempt
  | reportWarning
  | logPickleFailure (message filename : String) (lineno : Nat)
deriving DecidableEq

/-- How `warning_added` finishes. -/
inductive WExit
  | returned
  /-- the except handler itself raised AttributeError while formatting
  the log message. -/
  | raisedAttributeError
  /-- an uncaught exception from `report_warning` propagated. -/
  | raisedOther
deriving DecidableEq

/-- The `except (pickle.PicklingError, TypeError)` handler: formats and
logs using the *current* binding of the name `warning`.  If any of the
three attribute accesses fails, the handler itself raises and nothing
is logged. -/
def exceptHandler (bound : PyValue) (es : List WEvent) : List WEvent × WExit :=
  match attrMessage bound, attrFilename bound, attrLineno bound with
  | Except.ok m, Except.ok f, Except.ok l =>
      (es ++ [WEvent.logPickleFailure m f l], WExit.returned)
  | _, _, _ => (es, WExit.raisedAttributeError)

/-- `Worker.warning_added` (worker.py lines 30-35).  On pickling
success the name `warning` is rebound to the pickled bytes before
`report_warning` is called; on a caught exception the handler runs
with whatever `warning` is bound to at that point. -/
def warning_added (w : Warning) (pr : PickleResult) (rr : ReportResult) :
    List WEvent × WExit :=
  match pr with
  | PickleResult.ok =>
      match rr with
      | ReportResult.ok =>
          ([WEvent.pickleAttempt, WEvent.reportWarning], WExit.returned)
      | ReportResult.raisesTypeError =>
          exceptHandler PyValue.pickledBytes [WEvent.pickleAttempt, WEvent.reportWarning]
      | ReportResult.raisesOther =>
          ([WEvent.pickleAttempt, WEvent.reportWarning], WExit.raisedOther)
  | PickleResult.raisesPicklingError =>
      exceptHandler (PyValue.warningObj w) [WEvent.pickleAttempt]
  | PickleResult.raisesTypeError =>
      exceptHandler (PyValue.warningObj w) [WEvent.pickleAttempt]

/-! ### Helper lemmas -/

/-- Composition law for the dispatch/submission discipline checker. -/
theorem seqRun_append (l1 l2 : List Event) (p : Option Nat) :
    seqRun (l1 ++ l2) p =
      Option.bind (seqRun l1 p) (fun q => seqRun l2 q) := by
  induction l1 generalizing p with
  | nil => rfl
  | cons e es ih =>
      cases hs : seqStep e p <;>
        simp [List.cons_append, seqRun, hs, ih]

/-- Neutral events leave the discipline state unchanged. -/
theorem seqRun_neutral (l : List Event) (h : ∀ e ∈ l, seqNeutral e = true)
    (q : Option Nat) : seqRun l q = some q := by
  induction l with
  | nil => rfl
  | cons e es ih =>
      have he : seqNeutral e = true := h e (List.mem_cons_self e es)
      have hrest : ∀ x ∈ es, seqNeutral x = true :=
        fun x hx => h x (List.mem_cons_of_mem e hx)
      have hstep : seqStep e q = some q := by
        cases e <;> simp_all [seqNeutral, seqStep]
      simp [seqRun, hstep, ih hrest]

/-- Every run of the loop respects the dispatch/submission discipline,
starting and even ending with its in-flight state accounted for. -/
theorem seqRun_runLoop (cid : String) (n : Nat) (script : List LoopStep) :
    (seqRun (runLoop cid n script).1 none).isSome = true := by
  induction script with
  | nil => rfl
  | cons s rest ih =>
      cases s with
      | waiting => simpa [runLoop, seqRun] using ih
      | protoError => rfl
      | finishedAll => rfl
      | terminate => rfl
      | dispatch i interrupts ack =>
          by_cases hi : i < n
          · cases interrupts with
            | true => simp [runLoop, hi, seqRun, seqStep]
            | false =>
                cases ack with
                | ok => simpa [runLoop, hi, seqRun, seqStep] using ih
                | protocolError => simp [runLoop, hi, seqRun, seqStep]
          · simp [runLoop, hi, seqRun, seqStep]

/-! ### Claims -/

/-- C1 counterexample: with the master answering `PROTOCOL_ERROR` to the
first `get_test`, the loop exits on the protocol-error path, yet the
trace of `Worker.start` contains both a `disconnect` call and
`mark_complete`: the `else` clause of the `try` statement runs after a
`break`, so the claim that neither happens is false on the code. -/
theorem C1_counterexample :
    (runLoop "w1" 3 [LoopStep.protoError]).2 = LoopExit.protoErrorGet ∧
    Event.disconnect "w1" ∈ (start "w1" true 3 [LoopStep.protoError]).1 ∧
    Event.markComplete ∈ (start "w1" true 3 [LoopStep.protoError]).1 := by
  decide

/-- C1 (amended): if the run loop exits because `get_test` or
`finished_test` returned `PROTOCOL_ERROR`, `Worker.start` performs
teardown AND marks the session complete AND issues the `disconnect`
RPC, then returns normally — the `else` clause of the `try` runs on
every non-exceptional loop exit, including the protocol-error ones. -/
theorem C1_amended_thm (cid : String) (n : Nat) (script : List LoopStep)
    (h : (runLoop cid n script).2 = LoopExit.protoErrorGet ∨
         (runLoop cid n script).2 = LoopExit.protoErrorAck) :
    start cid true n script =
      ([Event.register, Event.connect cid, Event.validateCollection cid,
          Event.heartbeatStart] ++ (runLoop cid n script).1 ++
        [Event.markComplete, Event.disconnect cid, Event.flushRemainingScopes,
          Event.stopEventSet, Event.joinHeartbeat],
       ExitKind.returned) := by
  rcases h with h | h <;> simp [start, h]

/-- C1 amended-claim witness at the concrete protocol-error script. -/
theorem C1_amended_witness :
    start "w1" true 3 [LoopStep.protoError] =
      ([Event.register, Event.connect "w1", Event.validateCollection "w1",
          Event.heartbeatStart] ++ (runLoop "w1" 3 [LoopStep.protoError]).1 ++
        [Event.markComplete, Event.disconnect "w1", Event.flushRemainingScopes,
          Event.stopEventSet, Event.joinHeartbeat],
       ExitKind.returned) :=
  C1_amended_thm "w1" 3 [LoopStep.protoError] (Or.inl rfl)

/-- C2: when `validate_collection` returns false, `Worker.start` logs
the mismatch naming the worker, makes exactly one `disconnect` call,
zero `get_test` calls, runs no test, never starts the heartbeat thread,
never marks the session complete, and returns. -/
theorem C2_validation_gate (cid : String) (n : Nat) (script : List LoopStep) :
    Event.logMismatch cid ∈ (start cid false n script).1 ∧
    (start cid false n script).1.count (Event.disconnect cid) = 1 ∧
    (start cid false n script).1.filter isGetTest = [] ∧
    (start cid false n script).1.filter isRunTest = [] ∧
    (start cid false n script).1.count Event.heartbeatStart = 0 ∧
    (start cid false n script).1.count Event.markComplete = 0 ∧
    (start cid false n script).2 = ExitKind.returned := by
  refine ⟨?_, ?_, ?_, ?_, ?_, ?_, rfl⟩ <;>
    simp [start, isGetTest, isRunTest, List.count_cons]

/-- C3: for three collected tests with master responses index 0, index 1
(both acknowledged ok), then `FINISHED_ALL_TESTS`, the worker submits
exactly the two results in order (test 0 then test 1), the loop exits
normally, the session is marked complete and `disconnect` is called
exactly once. -/
theorem C3_end_to_end :
    (start "w1" true 3 script3).1.filter isFinishedSubmit =
      [Event.finishedTest "w1" 0, Event.finishedTest "w1" 1] ∧
    (runLoop "w1" 3 script3).2 = LoopExit.completed ∧
    Event.markComplete ∈ (start "w1" true 3 script3).1 ∧
    (start "w1" true 3 script3).1.count (Event.disconnect "w1") = 1 ∧
    (start "w1" true 3 script3).2 = ExitKind.returned := by
  decide

/-- C4: however the run loop exits (normal completion, protocol error
from either RPC, or interruption), the `finally` teardown — flush
remaining scopes, set the heartbeat stop event, join the heartbeat
thread, in that order — is the tail of the trace before `Worker.start`
returns or re-raises, and an interruption is re-raised (exit kind
`raisedInterruption`) rather than swallowed. -/
theorem C4_teardown (cid : String) (n : Nat) (script : List LoopStep)
    (h : (runLoop cid n script).2 = LoopExit.completed ∨
         (runLoop cid n script).2 = LoopExit.protoErrorGet ∨
         (runLoop cid n script).2 = LoopExit.protoErrorAck ∨
         (runLoop cid n script).2 = LoopExit.interrupted) :
    (∃ l, (start cid true n script).1 =
      l ++ [Event.flushRemainingScopes, Event.stopEventSet, Event.joinHeartbeat]) ∧
    ((runLoop cid n script).2 = LoopExit.interrupted →
      (start cid true n script).2 = ExitKind.raisedInterruption) ∧
    ((runLoop cid n script).2 = LoopExit.completed ∨
     (runLoop cid n script).2 = LoopExit.protoErrorGet ∨
     (runLoop cid n script).2 = LoopExit.protoErrorAck →
      (start cid true n script).2 = ExitKind.returned) := by
  rcases h with h | h | h | h
  · exact ⟨⟨[Event.register, Event.connect cid, Event.validateCollection cid,
        Event.heartbeatStart] ++ (runLoop cid n script).1 ++
        [Event.markComplete, Event.disconnect cid], by simp [start, h]⟩,
      fun hi => by simp [h] at hi, fun _ => by simp [start, h]⟩
  · exact ⟨⟨[Event.register, Event.connect cid, Event.validateCollection cid,
        Event.heartbeatStart] ++ (runLoop cid n script).1 ++
        [Event.markComplete, Event.disconnect cid], by simp [start, h]⟩,
      fun hi => by simp [h] at hi, fun _ => by simp [start, h]⟩
  · exact ⟨⟨[Event.register, Event.connect cid, Event.validateCollection cid,
        Event.heartbeatStart] ++ (runLoop cid n script).1 ++
        [Event.markComplete, Event.disconnect cid], by simp [start, h]⟩,
      fun hi => by simp [h] at hi, fun _ => by simp [start, h]⟩
  · exact ⟨⟨[Event.register, Event.connect cid, Event.validateCollection cid,
        Event.heartbeatStart] ++ (runLoop cid n script).1 ++
        [Event.logInterrupted], by simp [start, h]⟩,
      fun _ => by simp [start, h],
      fun hr => by rcases hr with hr | hr | hr <;> simp [h] at hr⟩

/-- C4 witness at the concrete normal-completion script. -/
theorem C4_teardown_witness :
    (∃ l, (start "w1" true 3 [LoopStep.finishedAll]).1 =
      l ++ [Event.flushRemainingScopes, Event.stopEventSet, Event.joinHeartbeat]) ∧
    ((runLoop "w1" 3 [LoopStep.finishedAll]).2 = LoopExit.interrupted →
      (start "w1" true 3 [LoopStep.finishedAll]).2 = ExitKind.raisedInterruption) ∧
    ((runLoop "w1" 3 [LoopStep.finishedAll]).2 = LoopExit.completed ∨
     (runLoop "w1" 3 [LoopStep.finishedAll]).2 = LoopExit.protoErrorGet ∨
     (runLoop "w1" 3 [LoopStep.finishedAll]).2 = LoopExit.protoErrorAck →
      (start "w1" true 3 [LoopStep.finishedAll]).2 = ExitKind.returned) :=
  C4_teardown "w1" 3 [LoopStep.finishedAll] (Or.inl rfl)

/-- C5: every trace of `Worker.start` respects the strictly sequential
dispatch/submission discipline encoded by `seqRun`: a `get_test` call
or a test execution only ever happens with no unsubmitted result in
flight, and each `finished_test` submits exactly the test dispatched
last — so no two tests are ever in flight and the result of test N is
submitted before the next `get_test`. -/
theorem C5_sequential (cid : String) (v : Bool) (n : Nat)
    (script : List LoopStep) :
    (seqRun (start cid v n script).1 none).isSome = true := by
  cases v with
  | false => rfl
  | true =>
      obtain ⟨q, hq⟩ := Option.isSome_iff_exists.mp (seqRun_runLoop cid n script)
      cases hx : (runLoop cid n script).2 <;> cases q <;>
        simp [start, hx, seqRun_append, hq, seqRun, seqStep]

/-- C6: whenever `pickle.dumps` fails with either caught exception
class, `warning_added` logs the warning's message, file and line (the
name `warning` is still bound to the original object), never calls
`report_warning` (the warning is dropped), and returns without
raising. -/
theorem C6_warning_resilience (w : Warning) (rr : ReportResult) :
    warning_added w PickleResult.raisesPicklingError rr =
      ([WEvent.pickleAttempt,
        WEvent.logPickleFailure w.message w.filename w.lineno], WExit.returned) ∧
    warning_added w PickleResult.raisesTypeError rr =
      ([WEvent.pickleAttempt,
        WEvent.logPickleFailure w.message w.filename w.lineno], WExit.returned) :=
  ⟨rfl, rfl⟩

/-- C7: a `WAITING_FOR_CLIENTS` response makes the loop log at debug
level, sleep, and poll `get_test` again with unchanged behaviour, and
in the concrete two-waits-then-dispatch script the trace is exactly two
back-off sleeps followed by the normal dispatch of test 0, with no
error-level log and a normal loop exit. -/
theorem C7_waiting_backoff (cid : String) (n : Nat) (rest : List LoopStep) :
    runLoop cid n (LoopStep.waiting :: rest) =
      (Event.getTest cid :: Event.logDebug :: Event.sleepBackoff ::
        (runLoop cid n rest).1, (runLoop cid n rest).2) ∧
    (runLoop "w1" 3 scriptWait).1 =
      [Event.getTest "w1", Event.logDebug, Event.sleepBackoff,
       Event.getTest "w1", Event.logDebug, Event.sleepBackoff,
       Event.getTest "w1", Event.setCurrentTestIndex 0, Event.runTest 0,
       Event.logDebug, Event.finishedTest "w1" 0,
       Event.getTest "w1", Event.logDebug] ∧
    (runLoop "w1" 3 scriptWait).1.filter isErrorLog = [] ∧
    (runLoop "w1" 3 scriptWait).2 = LoopExit.completed :=
  ⟨rfl, by decide, by decide, by decide⟩

/-- C8: if `finished_test` acknowledges with `PROTOCOL_ERROR`, the loop
stops after that iteration, whatever the master would have answered
next: the iteration's events end with the `finished_test` submission
(already reported) and the error log, and no further `get_test` or test
execution occurs. -/
theorem C8_ack_protocol_error (cid : String) (n i : Nat)
    (rest : List LoopStep) (h : i < n) :
    runLoop cid n
        (LoopStep.dispatch i false FinishedTestAck.protocolError :: rest) =
      ([Event.getTest cid, Event.setCurrentTestIndex i, Event.runTest i,
        Event.logDebug, Event.finishedTest cid i, Event.logProtocolError cid],
       LoopExit.protoErrorAck) := by
  simp [runLoop, h]

/-- C8 witness at a concrete in-range dispatch. -/
theorem C8_witness :
    runLoop "w1" 3 [LoopStep.dispatch 0 false FinishedTestAck.protocolError] =
      ([Event.getTest "w1", Event.setCurrentTestIndex 0, Event.runTest 0,
        Event.logDebug, Event.finishedTest "w1" 0, Event.logProtocolError "w1"],
       LoopExit.protoErrorAck) :=
  C8_ack_protocol_error "w1" 3 0 [] (by decide)

/-- C9: the loop's classification of a `get_test` response is total over
exactly the five outcome classes — each sentinel to its own class, a
real index to `realIndex`, and every response falls into one of the
five, with the real-index class reached only by real indices. -/
theorem C9_sentinel_exhaustive :
    classify GetTestResponse.waitingForClients = OutcomeClass.waiting ∧
    classify GetTestResponse.protocolError = OutcomeClass.protoError ∧
    classify GetTestResponse.finishedAllTests = OutcomeClass.allFinished ∧
    classify GetTestResponse.shouldTerminate = OutcomeClass.shouldTerminate ∧
    (∀ i, classify (GetTestResponse.testIndex i) = OutcomeClass.realIndex i) ∧
    (∀ r, classify r = OutcomeClass.waiting ∨
      classify r = OutcomeClass.protoError ∨
      classify r = OutcomeClass.allFinished ∨
      classify r = OutcomeClass.shouldTerminate ∨
      ∃ i, r = GetTestResponse.testIndex i ∧
        classify r = OutcomeClass.realIndex i) := by
  refine ⟨rfl, rfl, rfl, rfl, fun i => rfl, fun r => ?_⟩
  cases r with
  | waitingForClients => exact Or.inl rfl
  | protocolError => exact Or.inr (Or.inl rfl)
  | finishedAllTests => exact Or.inr (Or.inr (Or.inl rfl))
  | shouldTerminate => exact Or.inr (Or.inr (Or.inr (Or.inl rfl)))
  | testIndex i => exact Or.inr (Or.inr (Or.inr (Or.inr ⟨i, rfl, rfl⟩)))

/-- C10: when pickling succeeds (rebinding the name `warning` to the
pickled bytes) and `report_warning` then raises TypeError, the except
handler evaluates `.message` on the bytes object, so it raises
AttributeError itself: the exception escapes `warning_added` and
nothing is logged. -/
theorem C10_rebound_warning (w : Warning) :
    warning_added w PickleResult.ok ReportResult.raisesTypeError =
      ([WEvent.pickleAttempt, WEvent.reportWarning],
       WExit.raisedAttributeError) :=
  rfl

end Worker
